import Mathlib

/-!
Verification of the outfit-suggestion core of the combina-api repository.

The definitions below are a shallow embedding of `routers/outfits.py`:
pure data is translated to Lean structures, Python dicts and sets to
association lists and lists (only membership matters for sets, and wherever
the code observes an order it does so through `sorted`, which we model with
an order-respecting sort), and code that raises `HTTPException` to
`Except HTTPError`.  The generative service (GPT) is modelled as an oracle
`Nat → String → AIResponse` mapping an attempt number and the prompt sent on
that attempt to the parsed JSON response.
-/

deriving instance DecidableEq for Except

namespace Combina

/-- Python's comparison on `str`: lexicographic on the code-point sequence.
This is `String`'s library order (`strLe_iff_le`), stated on the underlying
character lists so that it evaluates by kernel reduction on concrete
inputs. -/
def strLe (a b : String) : Prop :=
  a.data = b.data ∨ a.data < b.data

instance : DecidableRel strLe :=
  fun _ _ => inferInstanceAs (Decidable (_ ∨ _))

/-- `strLe` agrees with `String`'s linear order. -/
theorem strLe_iff_le (a b : String) : strLe a b ↔ a ≤ b := by
  rw [String.le_iff_toList_le]
  constructor <;> intro h <;> exact h

instance : IsTotal String strLe :=
  ⟨fun a b => by
    rcases le_total a b with h | h
    · exact Or.inl ((strLe_iff_le a b).mpr h)
    · exact Or.inr ((strLe_iff_le b a).mpr h)⟩

instance : IsTrans String strLe :=
  ⟨fun a b c hab hbc => (strLe_iff_le a c).mpr
    (le_trans ((strLe_iff_le a b).mp hab) ((strLe_iff_le b c).mp hbc))⟩

instance : IsAntisymm String strLe :=
  ⟨fun a b hab hba =>
    le_antisymm ((strLe_iff_le a b).mp hab) ((strLe_iff_le b a).mp hba)⟩

/-- Sorting a list of strings, modelling Python's `sorted` on `str`
(lexicographic on code points). -/
def sortStr (l : List String) : List String :=
  List.insertionSort strLe l

/-- `sortStr l` is a permutation of `l` (Python's `sorted` reorders). -/
theorem sortStr_perm (l : List String) : (sortStr l).Perm l :=
  List.perm_insertionSort _ l

/-- `sortStr l` is sorted for the code-point order. -/
theorem sortStr_sorted (l : List String) : (sortStr l).Sorted strLe :=
  List.sorted_insertionSort _ l

/-- Canonicalization: permuted id-lists have the same sorted form. -/
theorem sortStr_eq_of_perm {l1 l2 : List String} (h : l1.Perm l2) :
    sortStr l1 = sortStr l2 :=
  List.eq_of_perm_of_sorted ((sortStr_perm l1).trans (h.trans (sortStr_perm l2).symm))
    (sortStr_sorted l1) (sortStr_sorted l2)

/-- Modelled from the spec: `OptimizedClothingItem` is imported from `schemas`
in `routers/outfits.py` but the class itself is absent from the files under
src/ (`schemas.py` only defines the older `ClothingItem`); spec §3 gives its
fields: `id` (opaque stable identifier), `name`, `category` (one taxonomy
label), `colors` (ordered list) and `styles`/`style` (style tags).  Only
`id` and `category` are observed by the verified code paths. -/
structure OptimizedClothingItem where
  id : String
  name : String
  category : String
  colors : List String
  style : List String
deriving DecidableEq

/-- `SuggestedItem` from `schemas.py` (fields `id`, `name`, `category`;
`subcategory` is optional and never set by `routers/outfits.py`). -/
structure SuggestedItem where
  id : String
  name : String
  category : String
deriving DecidableEq

/-- `PinterestLink` from `schemas.py`. -/
structure PinterestLink where
  title : String
  url : String
deriving DecidableEq

/-- `OutfitResponse` from `schemas.py` as `suggest_outfit` actually builds it:
`description` and `suggestion_tip` are always strings (defaults map to `""`)
and `pinterest_links` is always a list (default `[]`). -/
structure OutfitResponse where
  items : List SuggestedItem
  description : String
  suggestion_tip : String
  pinterest_links : List PinterestLink
deriving DecidableEq

/-- `fastapi.HTTPException` as raised by the verified code: a status code and
a detail message. -/
structure HTTPError where
  status_code : Nat
  detail : String
deriving DecidableEq

/-- One entry of an occasion rule table: `valid_structures` is a list of
templates, each template a dict from slot name to a set of acceptable
category labels; `forbidden_categories` is a set of category labels.
Python sets are modelled as lists (only membership is observed, except under
`sorted`). -/
structure OccasionRules where
  valid_structures : List (List (String × List String))
  forbidden_categories : List String
deriving DecidableEq

/-- `OCCASION_REQUIREMENTS_FEMALE` from `routers/outfits.py`. -/
def OCCASION_REQUIREMENTS_FEMALE : List (String × OccasionRules) :=
  [ ("office-day",
     { valid_structures :=
         [ [ ("top", ["blouse", "shirt", "sweater"]),
             ("bottom", ["trousers", "mini-skirt", "midi-skirt", "long-skirt"]),
             ("shoes", ["classic-shoes", "loafers", "heels", "sneakers", "boots"]) ],
           [ ("one-piece", ["casual-dress", "jumpsuit"]),
             ("outerwear", ["blazer", "cardigan"]),
             ("shoes", ["classic-shoes", "loafers", "heels", "sneakers"]) ] ],
       forbidden_categories := ["track-bottom", "hoodie", "athletic-shorts", "crop-top"] }),
    ("business-meeting",
     { valid_structures :=
         [ [ ("top", ["blouse", "shirt"]),
             ("bottom", ["trousers", "mini-skirt", "midi-skirt"]),
             ("outerwear", ["blazer", "suit-jacket"]),
             ("shoes", ["heels", "classic-shoes"]) ],
           [ ("one-piece", ["evening-dress"]),
             ("outerwear", ["blazer"]),
             ("shoes", ["heels"]) ] ],
       forbidden_categories := ["jeans", "sneakers", "t-shirt", "sweatshirt"] }),
    ("celebration",
     { valid_structures :=
         [ [ ("one-piece", ["evening-dress", "jumpsuit", "casual-dress"]),
             ("shoes", ["heels", "sandals", "sneakers", "flats"]) ],
           [ ("top", ["blouse", "crop-top"]),
             ("bottom", ["trousers", "mini-skirt", "midi-skirt", "long-skirt"]),
             ("shoes", ["heels", "sneakers", "boots"]) ] ],
       forbidden_categories := ["track-bottom", "hoodie", "sporty-dress"] }),
    ("formal-dinner",
     { valid_structures :=
         [ [ ("one-piece", ["evening-dress", "jumpsuit"]),
             ("shoes", ["heels", "classic-shoes"]) ],
           [ ("top", ["blouse"]),
             ("bottom", ["trousers", "mini-skirt", "midi-skirt"]),
             ("outerwear", ["blazer"]),
             ("shoes", ["heels"]) ] ],
       forbidden_categories := ["sneakers", "jeans", "casual-dress", "t-shirt"] }),
    ("wedding",
     { valid_structures :=
         [ [ ("one-piece", ["evening-dress", "jumpsuit", "modest-evening-dress"]),
             ("shoes", ["heels", "sandals", "classic-shoes"]) ] ],
       forbidden_categories := ["sneakers", "boots", "jeans", "t-shirt"] }),
    ("yoga-pilates",
     { valid_structures :=
         [ [ ("top", ["tank-top", "bralette", "t-shirt"]),
             ("bottom", ["leggings", "track-bottom"]) ] ],
       forbidden_categories :=
         ["jeans", "shirt", "blouse", "boots", "heels", "sweater", "casual-dress"] }),
    ("gym",
     { valid_structures :=
         [ [ ("top", ["t-shirt", "tank-top", "track-top"]),
             ("bottom", ["leggings", "track-bottom", "athletic-shorts"]),
             ("shoes", ["sneakers", "casual-sport-shoes"]) ] ],
       forbidden_categories := ["jeans", "shirt", "blouse", "heels"] }) ]

/-- `OCCASION_REQUIREMENTS_MALE` from `routers/outfits.py`. -/
def OCCASION_REQUIREMENTS_MALE : List (String × OccasionRules) :=
  [ ("office-day",
     { valid_structures :=
         [ [ ("top", ["shirt", "polo-shirt", "sweater"]),
             ("bottom", ["trousers", "suit-trousers"]),
             ("shoes", ["classic-shoes", "loafers", "sneakers", "boots"]) ] ],
       forbidden_categories := ["track-bottom", "hoodie", "athletic-shorts", "tank-top"] }),
    ("business-meeting",
     { valid_structures :=
         [ [ ("top", ["shirt"]),
             ("bottom", ["suit-trousers"]),
             ("outerwear", ["suit-jacket", "blazer"]),
             ("shoes", ["classic-shoes", "loafers"]) ] ],
       forbidden_categories := ["jeans", "sneakers", "t-shirt", "polo-shirt"] }),
    ("celebration",
     { valid_structures :=
         [ [ ("top", ["shirt", "polo-shirt"]),
             ("bottom", ["trousers", "jeans"]),
             ("outerwear", ["blazer"]),
             ("shoes", ["classic-shoes", "sneakers", "boots"]) ] ],
       forbidden_categories := ["track-bottom", "hoodie", "athletic-shorts"] }),
    ("formal-dinner",
     { valid_structures :=
         [ [ ("top", ["shirt"]),
             ("bottom", ["suit-trousers"]),
             ("outerwear", ["suit-jacket", "tuxedo"]),
             ("shoes", ["classic-shoes"]) ] ],
       forbidden_categories := ["sneakers", "jeans", "polo-shirt", "t-shirt"] }),
    ("wedding",
     { valid_structures :=
         [ [ ("top", ["shirt"]),
             ("bottom", ["suit-trousers"]),
             ("outerwear", ["suit-jacket", "tuxedo"]),
             ("shoes", ["classic-shoes"]) ] ],
       forbidden_categories := ["sneakers", "boots", "jeans", "polo-shirt", "t-shirt"] }),
    ("yoga-pilates",
     { valid_structures :=
         [ [ ("top", ["t-shirt", "tank-top"]),
             ("bottom", ["track-bottom", "athletic-shorts"]) ] ],
       forbidden_categories :=
         ["jeans", "shirt", "polo-shirt", "boots", "classic-shoes", "sweater"] }),
    ("gym",
     { valid_structures :=
         [ [ ("top", ["t-shirt", "tank-top"]),
             ("bottom", ["track-bottom", "athletic-shorts"]),
             ("shoes", ["sneakers", "casual-sport-shoes"]) ] ],
       forbidden_categories := ["jeans", "shirt", "classic-shoes", "boots"] }) ]

/-- The gender dispatch shared by `check_wardrobe_compatibility` (line 188)
and `suggest_outfit` (line 431): `OCCASION_REQUIREMENTS_MALE if gender ==
'male' else OCCASION_REQUIREMENTS_FEMALE`. -/
def requirementsMap (gender : String) : List (String × OccasionRules) :=
  if gender = "male" then OCCASION_REQUIREMENTS_MALE else OCCASION_REQUIREMENTS_FEMALE

/-- The set comprehension of lines 204-207: all categories of all slots of
all templates (a Python set: duplicates collapse; only the sorted form of
this list is ever observed, so any duplicate-free list with the right
membership models it). -/
def allTemplateCategories (rules : OccasionRules) : List String :=
  (rules.valid_structures.flatMap (fun s => s.flatMap (fun p => p.2))).dedup

/-- The 422 detail string of line 208. -/
def unsuitableDetail (occasion : String) (cats : List String) : String :=
  "Your wardrobe is not suitable for '" ++ occasion ++
    "'. Please add appropriate items like: " ++
    String.intercalate ", " (sortStr cats) ++ "."

/-- The body of `AdvancedOutfitEngine.check_wardrobe_compatibility`
(lines 189-209), abstracted over the rule table the gender dispatch
selected.  Returns `.ok ()` where the Python returns, `.error e` where it
raises. -/
def check_wardrobe_compatibility_of (rmap : List (String × OccasionRules))
    (occasion : String) (wardrobe : List OptimizedClothingItem) :
    Except HTTPError Unit :=
  match rmap.lookup occasion with
  | none => .ok ()
  | some occasion_rules =>
    if occasion_rules.valid_structures = [] then .ok ()
    else
      let wardrobe_categories := wardrobe.map (·.category)
      let can_create_any_structure :=
        occasion_rules.valid_structures.any (fun struct =>
          struct.all (fun p => p.2.any (fun c => wardrobe_categories.contains c)))
      if can_create_any_structure then .ok ()
      else .error
        { status_code := 422,
          detail := unsuitableDetail occasion (allTemplateCategories occasion_rules) }

/-- `AdvancedOutfitEngine.check_wardrobe_compatibility` (lines 187-209). -/
def check_wardrobe_compatibility (occasion : String)
    (wardrobe : List OptimizedClothingItem) (gender : String) :
    Except HTTPError Unit :=
  check_wardrobe_compatibility_of (requirementsMap gender) occasion wardrobe

/-- One element of the generative response's `items` list: either a JSON
object (whose `id` key may be absent; pydantic requires `name` and
`category` to build a `SuggestedItem`) or a non-object JSON value. -/
inductive AIItem where
  | obj (id : Option String) (name : String) (category : String)
  | notObj
deriving DecidableEq

/-- One element of the generative response's `pinterest_links` list:
`search_query` and `title` keys may be absent; a `url` key may be present
but is never read by the code. -/
structure LinkIdea where
  title : Option String
  search_query : Option String
  url : Option String
deriving DecidableEq

/-- The parsed JSON object a generative call returns.  `items = none` models
a missing `items` key or one that is not a list (`ai_response.get("items",
[])` then `validate_outfit_structure`'s `isinstance` guard); likewise
`pinterest_links = none` models an absent `pinterest_links` key. -/
structure AIResponse where
  items : Option (List AIItem)
  description : Option String
  suggestion_tip : Option String
  pinterest_links : Option (List LinkIdea)
deriving DecidableEq

/-- The per-element body of `validate_outfit_structure`'s list comprehension
(lines 283-286): keep the element iff `isinstance(item, dict)` and
`item.get("id") in wardrobe_map`, building the `SuggestedItem` from it. -/
def validateItem (wardrobe_ids : List String) (it : AIItem) :
    Option SuggestedItem :=
  match it with
  | .notObj => none
  | .obj oid n c =>
    match oid with
    | none => none
    | some i => if wardrobe_ids.contains i then some ⟨i, n, c⟩ else none

/-- `AdvancedOutfitEngine.validate_outfit_structure` (lines 279-286): keeps,
in order, exactly the elements that are JSON objects whose `id` is a key of
`wardrobe_map` (the wardrobe's ids), building a `SuggestedItem` from each. -/
def validate_outfit_structure (items_from_ai : Option (List AIItem))
    (wardrobe : List OptimizedClothingItem) : List SuggestedItem :=
  match items_from_ai with
  | none => []
  | some items => items.filterMap (validateItem (wardrobe.map (·.id)))

/-! ## GPT load balancer (`GPTLoadBalancer`, lines 148-182)

Timestamps (`time.time()`) are modelled as natural numbers; Python's
`current - last > 300` on floats coincides with truncated `Nat` subtraction
here because a negative difference and a zero one both fail the `> 300`
test. -/

/-- The balancer's mutable state (`__init__`, lines 149-152; initial state
has both failure counters and both timestamps 0). -/
structure GPTLoadBalancer where
  primary_failures : Nat
  secondary_failures : Nat
  last_primary_use : Nat
  last_secondary_use : Nat
deriving DecidableEq

/-- `max_failures` (line 152). -/
def max_failures : Nat := 3

/-- `failure_reset_time` (line 152), seconds. -/
def failure_reset_time : Nat := 300

/-- The fresh balancer of `GPTLoadBalancer.__init__`. -/
def GPTLoadBalancer.init : GPTLoadBalancer :=
  { primary_failures := 0, secondary_failures := 0,
    last_primary_use := 0, last_secondary_use := 0 }

/-- Which of the two OpenAI clients a selection returned. -/
inductive ClientTag where
  | primary
  | secondary
deriving DecidableEq

/-- `GPTLoadBalancer.get_available_client` (lines 154-170), as a state
transformer: the mutated balancer and the chosen client tag. -/
def get_available_client (b : GPTLoadBalancer) (current_time : Nat) :
    GPTLoadBalancer × ClientTag :=
  let pf := if current_time - b.last_primary_use > failure_reset_time then 0
            else b.primary_failures
  let sf := if current_time - b.last_secondary_use > failure_reset_time then 0
            else b.secondary_failures
  if pf < max_failures then
    ({ b with primary_failures := pf, secondary_failures := sf,
              last_primary_use := current_time }, .primary)
  else if sf < max_failures then
    ({ b with primary_failures := pf, secondary_failures := sf,
              last_secondary_use := current_time }, .secondary)
  else
    ({ b with primary_failures := 0, secondary_failures := sf,
              last_primary_use := current_time }, .primary)

/-- `GPTLoadBalancer.report_failure` (lines 172-176). -/
def report_failure (b : GPTLoadBalancer) (client_type : ClientTag) :
    GPTLoadBalancer :=
  match client_type with
  | .primary => { b with primary_failures := b.primary_failures + 1 }
  | .secondary => { b with secondary_failures := b.secondary_failures + 1 }

/-- `GPTLoadBalancer.report_success` (lines 178-182): `max(0, n - 1)`, which
is truncated subtraction on `Nat`. -/
def report_success (b : GPTLoadBalancer) (client_type : ClientTag) :
    GPTLoadBalancer :=
  match client_type with
  | .primary => { b with primary_failures := b.primary_failures - 1 }
  | .secondary => { b with secondary_failures := b.secondary_failures - 1 }

/-! ## Usage gate (`check_usage_and_get_user_data`, lines 291-353) -/

/-- The `user_info` dict built by `check_usage_and_get_user_data`:
`recent_outfits` keeps only each stored outfit map's `items` list
(`outfit.get("items", [])`), the one field the verified code reads. -/
structure UserInfo where
  user_id : String
  gender : String
  plan : String
  recent_outfits : List (List String)
  is_anonymous : Bool
deriving DecidableEq

/-- A stored `usage` record: `{count, date, rewarded_count}` with the
`.get` defaults (0, the stored date string, 0). -/
structure UsageRecord where
  count : Nat
  dateStr : String
  rewarded_count : Nat
deriving DecidableEq

/-- The fields of a stored user document that the usage gate reads, with
their `.get` defaults already applied except for `gender` (whose default
`"unisex"` is applied inside the gate, line 341). -/
structure StoredUser where
  plan : String
  gender : Option String
  usage : UsageRecord
  recent_outfits : List (List String)
deriving DecidableEq

/-- `PLAN_LIMITS` (lines 36-40): `{"free": 2, "premium": None,
"anonymous": 1}`.  `none` is Python's `None` (unlimited sentinel). -/
def PLAN_LIMITS : List (String × Option Nat) :=
  [("free", some 2), ("premium", none), ("anonymous", some 1)]

/-- `PLAN_LIMITS.get(plan, 2)` as used on line 350.  The only plan mapped to
`None` is `"premium"`, and line 350 is only reached for non-premium plans,
so the numeric read is total there; `getD 2` reproduces the dict default. -/
def planLimitNonPremium (plan : String) : Nat :=
  (((PLAN_LIMITS.lookup plan).getD (some 2)).getD 2)

/-- The authenticated branch of `check_usage_and_get_user_data`
(lines 321-353), as a pure function of today's date string and the stored
user document.  `.ok` is the returned `user_info`, `.error` the raised
`HTTPException`. -/
def check_usage_auth (today : String) (user_id : String) (u : StoredUser) :
    Except HTTPError UserInfo :=
  let usage_data :=
    if u.usage.dateStr ≠ today then
      { count := 0, dateStr := today, rewarded_count := 0 }
    else u.usage
  let user_info : UserInfo :=
    { user_id := user_id, gender := u.gender.getD "unisex", plan := u.plan,
      recent_outfits := u.recent_outfits, is_anonymous := false }
  if u.plan = "premium" then .ok user_info
  else if usage_data.count ≥ planLimitNonPremium u.plan + usage_data.rewarded_count then
    .error { status_code := 429, detail := "Daily limit reached." }
  else .ok user_info

/-- The anonymous branch of `check_usage_and_get_user_data`
(lines 299-319), below its quota test: the `user_info` it returns. -/
def anonymous_user_info (user_id : String) : UserInfo :=
  { user_id := user_id, gender := "unisex", plan := "anonymous",
    recent_outfits := [], is_anonymous := true }

/-! ## URL encoding and Pinterest link assembly (lines 510-520) -/

/-- UTF-8 encoding of one character, as a list of byte values. -/
def utf8Bytes (c : Char) : List Nat :=
  let n := c.toNat
  if n < 128 then [n]
  else if n < 2048 then
    [192 + n / 64, 128 + n % 64]
  else if n < 65536 then
    [224 + n / 4096, 128 + (n / 64) % 64, 128 + n % 64]
  else
    [240 + n / 262144, 128 + (n / 4096) % 64, 128 + (n / 64) % 64, 128 + n % 64]

/-- The bytes `urllib.parse.quote` leaves unescaped with the default
`safe='/'`: ASCII letters, digits, `_`, `.`, `-`, `~` and `/`. -/
def quoteSafeByte (b : Nat) : Bool :=
  (65 ≤ b && b ≤ 90) || (97 ≤ b && b ≤ 122) || (48 ≤ b && b ≤ 57) ||
    b = 95 || b = 46 || b = 45 || b = 126 || b = 47

/-- One uppercase hexadecimal digit. -/
def hexDigit (n : Nat) : Char :=
  if n < 10 then Char.ofNat (48 + n) else Char.ofNat (55 + n)

/-- `urllib.parse.quote` applied to one UTF-8 byte. -/
def quoteByte (b : Nat) : String :=
  if quoteSafeByte b then String.singleton (Char.ofNat b)
  else "%" ++ String.singleton (hexDigit (b / 16)) ++
    String.singleton (hexDigit (b % 16))

/-- `urllib.parse.quote(s)` (line 515): percent-encodes every UTF-8 byte
outside the safe set, with uppercase hex digits. -/
def quote (s : String) : String :=
  String.join ((s.data.flatMap utf8Bytes).map quoteByte)

/-- The per-idea body of the loop of lines 513-519: a link is emitted iff
the `search_query` key is present and truthy (a nonempty string); its title
is the idea's `title` (default `"Inspiration"`), its URL is built locally
from the encoded query; any model-emitted `url` field is never read. -/
def assembleLink (idea : LinkIdea) : Option PinterestLink :=
  match idea.search_query with
  | none => none
  | some q =>
    if q = "" then none
    else some { title := idea.title.getD "Inspiration",
                url := "https://www.pinterest.com/search/pins/?q=" ++ quote q }

/-- The Pinterest-link construction of lines 512-520. -/
def assemblePinterestLinks (ideas : List LinkIdea) : List PinterestLink :=
  ideas.filterMap assembleLink

/-! ## The generation-retry loop and `suggest_outfit` (lines 417-539) -/

/-- Modelled from the spec: `SAME_OUTFIT_ERRORS` is imported from
`core.localization`, but the table itself is absent from the files under
src/ (`core/localization.py` defines only `TRANSLATIONS` and
`get_translation`).  Spec §4.6 and §7 describe it as a localized
"could not produce a distinct suggestion" message keyed by language; the
lookup `SAME_OUTFIT_ERRORS.get(request.language, SAME_OUTFIT_ERRORS["en"])`
(line 497) falls back to English. -/
def SAME_OUTFIT_ERRORS : List (String × String) :=
  [("en", "Could not produce a distinct suggestion. Please try again later.")]

/-- The localized terminal-failure message: the table lookup of line 497
with its English fallback. -/
def sameOutfitError (language : String) : String :=
  (SAME_OUTFIT_ERRORS.lookup language).getD
    ((SAME_OUTFIT_ERRORS.lookup "en").getD "")

/-- `hard_avoid_ids.add(item_id)` for each id of the attempt (lines
486-487): a Python set, modelled as a duplicate-free insertion list. -/
def addAvoid (avoid : List String) (ids : List String) : List String :=
  ids.foldl (fun a i => if a.contains i then a else a ++ [i]) avoid

/-- The avoidance clause appended to the base prompt when `hard_avoid_ids`
is nonempty (lines 460-462).  Python iterates the set in an unspecified
order; the model joins the insertion list. -/
def currentPrompt (basePrompt : String) (hardAvoid : List String) : String :=
  if hardAvoid = [] then basePrompt
  else basePrompt ++
    "\nCRITICAL AVOIDANCE RULE: You are strictly forbidden from using any of these item IDs: "
    ++ String.intercalate ", " hardAvoid ++ "\n"

/-- What one iteration of the attempt loop (lines 456-493) decides about a
parsed generative response. -/
inductive AttemptOutcome where
  | invalid
  | repeated (newHardAvoid : List String)
  | accept (items : List SuggestedItem)
deriving DecidableEq

/-- `new_outfit_ids` (line 479): the canonicalized (sorted) id list of the
attempt's surviving items. -/
def new_outfit_ids (resp : AIResponse) (wardrobe : List OptimizedClothingItem) :
    List String :=
  sortStr ((validate_outfit_structure resp.items wardrobe).map (·.id))

/-- One iteration of the attempt loop, lines 469-493: validate the response
items against the (filtered) wardrobe; an empty survivor list retries; for
non-anonymous callers a survivor id-list whose sorted form is in
`existing_outfits_ids`, or that meets the hard-avoid set in even one id, is
a repeat (all its ids are added to the hard-avoid set); otherwise the
attempt is accepted. -/
def attemptOutcome (is_anonymous : Bool)
    (wardrobe : List OptimizedClothingItem) (existing : List (List String))
    (hardAvoid : List String) (resp : AIResponse) : AttemptOutcome :=
  let validated := validate_outfit_structure resp.items wardrobe
  if validated = [] then .invalid
  else
    if !is_anonymous &&
        (existing.contains (new_outfit_ids resp wardrobe) ||
          (new_outfit_ids resp wardrobe).any (fun i => hardAvoid.contains i)) then
      .repeated (addAvoid hardAvoid (new_outfit_ids resp wardrobe))
    else
      .accept validated

/-- The attempt loop of lines 456-493, recursing on the remaining attempt
budget (`max_attempts - attempt + 1`).  `gpt` is the generative oracle:
attempt number and prompt in, parsed JSON out (transport retries inside
`call_gpt_with_retry` are below this model's level: the oracle is the value
`json.loads` returns for that attempt).  Returns the accepted survivors and
the accepted response, or `none` when every attempt was consumed. -/
def suggestLoop (gpt : Nat → String → AIResponse) (is_anonymous : Bool)
    (wardrobe : List OptimizedClothingItem) (existing : List (List String))
    (basePrompt : String) :
    Nat → Nat → List String → Option (List SuggestedItem × AIResponse)
  | _, 0, _ => none
  | attempt, fuel + 1, hardAvoid =>
    let resp := gpt attempt (currentPrompt basePrompt hardAvoid)
    match attemptOutcome is_anonymous wardrobe existing hardAvoid resp with
    | .invalid =>
      suggestLoop gpt is_anonymous wardrobe existing basePrompt (attempt + 1) fuel hardAvoid
    | .repeated newAvoid =>
      suggestLoop gpt is_anonymous wardrobe existing basePrompt (attempt + 1) fuel newAvoid
    | .accept items => some (items, resp)

/-- `max_attempts` (line 446). -/
def max_attempts : Nat := 2

/-- The write `suggest_outfit` performs after a success (lines 522-537):
anonymous callers bump the in-memory cache; authenticated callers get one
Firestore update carrying `usage.count`'s increment and the new
`recent_outfits` list. -/
inductive UsageEffect where
  | anonIncrement (user_id : String)
  | authUpdate (user_id : String) (countIncrement : Nat)
    (recent_outfits : List (List String))
deriving DecidableEq

/-- The request fields `suggest_outfit` reads (schema `OutfitRequest`,
restricted to the fields the verified paths observe). -/
structure OutfitRequestM where
  language : String
  occasion : String
  wardrobe : List OptimizedClothingItem
deriving DecidableEq

/-- `occasion_rules.get("forbidden_categories", set())` after the lookup of
lines 431-434, abstracted over the rule table the gender dispatch
selected. -/
def forbidden_categories_of (rmap : List (String × OccasionRules))
    (occasion : String) : List String :=
  ((rmap.lookup occasion).map (·.forbidden_categories)).getD []

/-- The list comprehension of lines 436-439: the wardrobe with every item
of a forbidden category removed. -/
def filtered_wardrobe_of (rmap : List (String × OccasionRules))
    (occasion : String) (wardrobe : List OptimizedClothingItem) :
    List OptimizedClothingItem :=
  wardrobe.filter (fun item =>
    !(forbidden_categories_of rmap occasion).contains item.category)

/-- The wardrobe actually sent downstream, abstracted over the rule table:
lines 436-440, the filtered wardrobe falling back to the unfiltered one
when filtering would empty it. -/
def wardrobeSent_of (rmap : List (String × OccasionRules)) (occasion : String)
    (wardrobe : List OptimizedClothingItem) : List OptimizedClothingItem :=
  let filtered := filtered_wardrobe_of rmap occasion wardrobe
  if filtered = [] then wardrobe else filtered

/-- The wardrobe actually sent downstream (lines 430-440), with the gender
dispatch of line 431. -/
def wardrobeSent (occasion : String) (gender : String)
    (wardrobe : List OptimizedClothingItem) : List OptimizedClothingItem :=
  wardrobeSent_of (requirementsMap gender) occasion wardrobe

/-- `suggest_outfit` (lines 417-539) as a pure function.  `basePrompt`
stands for `create_advanced_prompt`'s result (its text is threaded to the
oracle but never inspected by the verified logic; building it needs
`localization.LANGUAGE_NAMES`, which is absent from src/).  `gpt` is the
generative oracle.  `.error` is the raised `HTTPException`; `.ok` carries
the `OutfitResponse` and the usage/history write performed. -/
def suggest_outfit (basePrompt : String) (gpt : Nat → String → AIResponse)
    (req : OutfitRequestM) (user_info : UserInfo) :
    Except HTTPError (OutfitResponse × UsageEffect) :=
  match check_wardrobe_compatibility req.occasion req.wardrobe user_info.gender with
  | .error e => .error e
  | .ok () =>
    let wardrobe := wardrobeSent req.occasion user_info.gender req.wardrobe
    if wardrobe = [] then
      .error { status_code := 400, detail := "Wardrobe cannot be empty." }
    else
      let existing_outfits_ids := user_info.recent_outfits.map sortStr
      match suggestLoop gpt user_info.is_anonymous wardrobe existing_outfits_ids
          basePrompt 1 max_attempts [] with
      | none =>
        .error { status_code := 422, detail := sameOutfitError req.language }
      | some (final_items, ai_response) =>
        let response : OutfitResponse :=
          { items := final_items,
            description := ai_response.description.getD "",
            suggestion_tip := ai_response.suggestion_tip.getD "",
            pinterest_links :=
              if user_info.plan = "premium" then
                match ai_response.pinterest_links with
                | some ideas => assemblePinterestLinks ideas
                | none => []
              else [] }
        let effect :=
          if user_info.is_anonymous then
            UsageEffect.anonIncrement user_info.user_id
          else
            UsageEffect.authUpdate user_info.user_id 1
              ((sortStr (final_items.map (·.id)) :: user_info.recent_outfits).take 5)
        .ok (response, effect)

/-! ## Helper lemmas -/

/-- Anything the validator keeps carries the id of a wardrobe item. -/
theorem validate_mem_ids {items : Option (List AIItem)}
    {w : List OptimizedClothingItem} {s : SuggestedItem}
    (h : s ∈ validate_outfit_structure items w) : s.id ∈ w.map (·.id) := by
  cases items with
  | none => simp [validate_outfit_structure] at h
  | some l =>
    simp only [validate_outfit_structure, List.mem_filterMap] at h
    obtain ⟨it, _, hkeep⟩ := h
    cases it with
    | notObj => simp [validateItem] at hkeep
    | obj oid n c =>
      cases oid with
      | none => simp [validateItem] at hkeep
      | some i =>
        simp only [validateItem] at hkeep
        split at hkeep
        · next hc =>
          simp only [Option.some.injEq] at hkeep
          subst hkeep
          simpa using hc
        · exact absurd hkeep (by simp)

/-- What an accepted attempt outcome means. -/
theorem attemptOutcome_accept {anon : Bool} {w : List OptimizedClothingItem}
    {ex : List (List String)} {ha : List String} {resp : AIResponse}
    {its : List SuggestedItem}
    (h : attemptOutcome anon w ex ha resp = .accept its) :
    its = validate_outfit_structure resp.items w ∧
      validate_outfit_structure resp.items w ≠ [] := by
  simp only [attemptOutcome] at h
  split at h
  · exact absurd h (by simp)
  next hne =>
    split at h
    · exact absurd h (by simp)
    · simp only [AttemptOutcome.accept.injEq] at h
      exact ⟨h.symm, hne⟩

/-- What a repeated attempt outcome means. -/
theorem attemptOutcome_repeated {anon : Bool} {w : List OptimizedClothingItem}
    {ex : List (List String)} {ha : List String} {resp : AIResponse}
    {na : List String}
    (h : attemptOutcome anon w ex ha resp = .repeated na) :
    na = addAvoid ha (new_outfit_ids resp w) ∧
      validate_outfit_structure resp.items w ≠ [] ∧ anon = false ∧
      (ex.contains (new_outfit_ids resp w) ||
        (new_outfit_ids resp w).any (fun i => ha.contains i)) = true := by
  simp only [attemptOutcome] at h
  split at h
  · exact absurd h (by simp)
  next hne =>
    split at h
    next hcond =>
      simp only [AttemptOutcome.repeated.injEq] at h
      rw [Bool.and_eq_true, Bool.not_eq_true'] at hcond
      exact ⟨h.symm, hne, hcond.1, hcond.2⟩
    · exact absurd h (by simp)

/-- A successful loop result is the validator's output on the accepted
response, and is nonempty. -/
theorem suggestLoop_some_eq {gpt : Nat → String → AIResponse} {anon : Bool}
    {w : List OptimizedClothingItem} {ex : List (List String)} {bp : String} :
    ∀ (f a : Nat) (ha : List String) {items : List SuggestedItem}
      {resp : AIResponse},
      suggestLoop gpt anon w ex bp a f ha = some (items, resp) →
      items = validate_outfit_structure resp.items w ∧ items ≠ [] := by
  intro f
  induction f with
  | zero =>
    intro a ha items resp h
    simp [suggestLoop] at h
  | succ n ih =>
    intro a ha items resp h
    simp only [suggestLoop] at h
    cases hout : attemptOutcome anon w ex ha (gpt a (currentPrompt bp ha)) with
    | invalid =>
      rw [hout] at h
      exact ih _ _ h
    | repeated na =>
      rw [hout] at h
      exact ih _ _ h
    | accept its =>
      rw [hout] at h
      simp only [Option.some.injEq, Prod.mk.injEq] at h
      obtain ⟨hi, hr⟩ := h
      obtain ⟨h1, h2⟩ := attemptOutcome_accept hout
      subst hi hr
      exact ⟨h1, h1 ▸ h2⟩

/-- A compatibility failure propagates: `suggest_outfit` raises it before
anything else (in particular before any generative call: the result does not
depend on `gpt`). -/
theorem suggest_outfit_check_error {bp : String}
    {gpt : Nat → String → AIResponse} {req : OutfitRequestM} {ui : UserInfo}
    {e : HTTPError}
    (hc : check_wardrobe_compatibility req.occasion req.wardrobe ui.gender = .error e) :
    suggest_outfit bp gpt req ui = .error e := by
  simp only [suggest_outfit, hc]

/-- With the compatibility check passing and the downstream wardrobe empty,
`suggest_outfit` raises the 400 for every oracle. -/
theorem suggest_outfit_empty_wardrobe {bp : String}
    {gpt : Nat → String → AIResponse} {req : OutfitRequestM} {ui : UserInfo}
    (hc : check_wardrobe_compatibility req.occasion req.wardrobe ui.gender = .ok ())
    (hw : wardrobeSent req.occasion ui.gender req.wardrobe = []) :
    suggest_outfit bp gpt req ui =
      .error { status_code := 400, detail := "Wardrobe cannot be empty." } := by
  simp only [suggest_outfit, hc, hw, if_pos]

/-- With the pre-checks passing and every attempt consumed, `suggest_outfit`
raises the localized 422 (and, being an error, performs no usage effect). -/
theorem suggest_outfit_loop_none {bp : String}
    {gpt : Nat → String → AIResponse} {req : OutfitRequestM} {ui : UserInfo}
    (hc : check_wardrobe_compatibility req.occasion req.wardrobe ui.gender = .ok ())
    (hw : wardrobeSent req.occasion ui.gender req.wardrobe ≠ [])
    (hl : suggestLoop gpt ui.is_anonymous
        (wardrobeSent req.occasion ui.gender req.wardrobe)
        (ui.recent_outfits.map sortStr) bp 1 max_attempts [] = none) :
    suggest_outfit bp gpt req ui =
      .error { status_code := 422, detail := sameOutfitError req.language } := by
  simp only [suggest_outfit, hc, hl, if_neg hw]

/-- Anatomy of a successful `suggest_outfit` run: the loop accepted a
response, and the response record and the usage effect are assembled from
it exactly as lines 500-537 do. -/
theorem suggest_outfit_ok_elim {bp : String}
    {gpt : Nat → String → AIResponse} {req : OutfitRequestM} {ui : UserInfo}
    {resp : OutfitResponse} {eff : UsageEffect}
    (h : suggest_outfit bp gpt req ui = .ok (resp, eff)) :
    ∃ r, suggestLoop gpt ui.is_anonymous
        (wardrobeSent req.occasion ui.gender req.wardrobe)
        (ui.recent_outfits.map sortStr) bp 1 max_attempts [] =
          some (resp.items, r) ∧
      resp.description = r.description.getD "" ∧
      resp.suggestion_tip = r.suggestion_tip.getD "" ∧
      resp.pinterest_links =
        (if ui.plan = "premium" then
          match r.pinterest_links with
          | some ideas => assemblePinterestLinks ideas
          | none => []
        else []) ∧
      eff = (if ui.is_anonymous then UsageEffect.anonIncrement ui.user_id
             else UsageEffect.authUpdate ui.user_id 1
               ((sortStr (resp.items.map (·.id)) :: ui.recent_outfits).take 5)) := by
  simp only [suggest_outfit] at h
  split at h
  · exact absurd h (by simp)
  · split at h
    · exact absurd h (by simp)
    · split at h
      · exact absurd h (by simp)
      next items r hl =>
        simp only [Except.ok.injEq, Prod.mk.injEq] at h
        obtain ⟨hresp, heff⟩ := h
        subst hresp heff
        exact ⟨r, hl, rfl, rfl, rfl, rfl⟩

/-! ## Claims -/

/-- C1: for every request that returns an `OutfitResponse`, every
`SuggestedItem.id` in the response's items is the id of some item of the
wardrobe sent to the generative service for that request; and validation
silently drops any generative item that is not a JSON object or whose id is
missing or not in that wardrobe, for every generative output. -/
theorem C1_id_provenance (bp : String) (gpt : Nat → String → AIResponse)
    (req : OutfitRequestM) (ui : UserInfo) (resp : OutfitResponse)
    (eff : UsageEffect)
    (hok : suggest_outfit bp gpt req ui = .ok (resp, eff)) :
    (∀ s ∈ resp.items,
      s.id ∈ (wardrobeSent req.occasion ui.gender req.wardrobe).map (·.id)) ∧
    (∀ (w : List OptimizedClothingItem) (pre post : List AIItem) (bad : AIItem),
      (bad = .notObj ∨
        ∃ oid n c, bad = .obj oid n c ∧ ∀ i, oid = some i → i ∉ w.map (·.id)) →
      validate_outfit_structure (some (pre ++ bad :: post)) w =
        validate_outfit_structure (some (pre ++ post)) w) := by
  constructor
  · intro s hs
    obtain ⟨r, hl, -⟩ := suggest_outfit_ok_elim hok
    obtain ⟨heq, -⟩ := suggestLoop_some_eq _ _ _ hl
    exact validate_mem_ids (heq ▸ hs)
  · intro w pre post bad hbad
    have hnone : validateItem (w.map (·.id)) bad = none := by
      rcases hbad with rfl | ⟨oid, n, c, rfl, hid⟩
      · rfl
      · cases oid with
        | none => rfl
        | some i =>
          have hni := hid i rfl
          simp [validateItem, hni]
    simp [validate_outfit_structure, List.filterMap_append, List.filterMap_cons,
      hnone]

/-- Witness: C1 applied to a concrete successful request (the returned id
`"1"` is in the submitted wardrobe). -/
theorem C1_id_provenance_witness :
    ("1" : String) ∈
      (wardrobeSent "casual" "female"
        [⟨"1", "Tee", "t-shirt", ["white"], ["casual"]⟩]).map (·.id) := by
  have h := C1_id_provenance "p"
    (fun _ _ => { items := some [.obj (some "1") "Tee" "t-shirt"],
                  description := some "d", suggestion_tip := none,
                  pinterest_links := none })
    { language := "en", occasion := "casual",
      wardrobe := [⟨"1", "Tee", "t-shirt", ["white"], ["casual"]⟩] }
    { user_id := "u", gender := "female", plan := "free",
      recent_outfits := [], is_anonymous := false }
    { items := [⟨"1", "Tee", "t-shirt"⟩], description := "d",
      suggestion_tip := "", pinterest_links := [] }
    (.authUpdate "u" 1 [["1"]])
    (by decide)
  exact h.1 ⟨"1", "Tee", "t-shirt"⟩ (by decide)

/-- C2: the compatibility pre-check passes iff at least one template exists
in which every slot's acceptable-category set intersects the wardrobe's
category set (OR across templates, AND across slots); with no rule set for
the occasion it always passes; when no template is satisfiable it fails
with HTTP-422 semantics listing the (sorted) union of all categories across
all templates — and it does so before any generative call (the request's
result does not depend on the oracle). -/
theorem C2_compatibility (occasion gender : String)
    (wardrobe : List OptimizedClothingItem) :
    ((requirementsMap gender).lookup occasion = none →
      check_wardrobe_compatibility occasion wardrobe gender = .ok ()) ∧
    (∀ rules, (requirementsMap gender).lookup occasion = some rules →
      rules.valid_structures ≠ [] →
      ((check_wardrobe_compatibility occasion wardrobe gender = .ok () ↔
        ∃ struct ∈ rules.valid_structures, ∀ slot ∈ struct,
          ∃ c ∈ slot.2, c ∈ wardrobe.map (·.category)) ∧
       (¬ (∃ struct ∈ rules.valid_structures, ∀ slot ∈ struct,
            ∃ c ∈ slot.2, c ∈ wardrobe.map (·.category)) →
        check_wardrobe_compatibility occasion wardrobe gender =
          .error ⟨422, unsuitableDetail occasion (allTemplateCategories rules)⟩ ∧
        ∀ c, c ∈ allTemplateCategories rules ↔
          ∃ struct ∈ rules.valid_structures, ∃ slot ∈ struct, c ∈ slot.2))) ∧
    (∀ (e : HTTPError) (bp lang : String) (gpt : Nat → String → AIResponse)
        (ui : UserInfo), ui.gender = gender →
      check_wardrobe_compatibility occasion wardrobe gender = .error e →
      suggest_outfit bp gpt
        { language := lang, occasion := occasion, wardrobe := wardrobe } ui =
        .error e) := by
  refine ⟨?_, ?_, ?_⟩
  · intro hnone
    simp [check_wardrobe_compatibility, check_wardrobe_compatibility_of, hnone]
  · intro rules hlook hvs
    have hiff : (rules.valid_structures.any (fun struct =>
        struct.all (fun p => p.2.any (fun c =>
          (wardrobe.map (·.category)).contains c)))) = true ↔
        ∃ struct ∈ rules.valid_structures, ∀ slot ∈ struct,
          ∃ c ∈ slot.2, c ∈ wardrobe.map (·.category) := by
      simp [List.any_eq_true, List.all_eq_true]
    have hunfold : check_wardrobe_compatibility occasion wardrobe gender =
        (if rules.valid_structures.any (fun struct =>
            struct.all (fun p => p.2.any (fun c =>
              (wardrobe.map (·.category)).contains c))) then .ok ()
         else .error ⟨422, unsuitableDetail occasion (allTemplateCategories rules)⟩) := by
      simp [check_wardrobe_compatibility, check_wardrobe_compatibility_of,
        hlook, hvs]
    constructor
    · rw [hunfold]
      constructor
      · intro hok
        by_cases hcan : (rules.valid_structures.any (fun struct =>
            struct.all (fun p => p.2.any (fun c =>
              (wardrobe.map (·.category)).contains c)))) = true
        · exact hiff.mp hcan
        · rw [if_neg hcan] at hok
          exact absurd hok (by simp)
      · intro hex
        rw [if_pos (hiff.mpr hex)]
    · intro hnot
      refine ⟨?_, ?_⟩
      · rw [hunfold, if_neg (fun hcan => hnot (hiff.mp hcan))]
      · intro c
        simp [allTemplateCategories, List.mem_dedup, List.mem_flatMap]
  · intro e bp lang gpt ui hg hc
    exact suggest_outfit_check_error (by rw [hg]; exact hc)

/-- Witness: C2 applied to the female `wedding` rule set and a wardrobe
holding only a t-shirt — infeasible, so the pre-check raises the 422 with
the template-category union, independent of any generative oracle. -/
theorem C2_compatibility_witness :
    check_wardrobe_compatibility "wedding" [⟨"1", "x", "t-shirt", [], []⟩] "female" =
      .error ⟨422, unsuitableDetail "wedding" (allTemplateCategories
        ⟨[ [ ("one-piece", ["evening-dress", "jumpsuit", "modest-evening-dress"]),
             ("shoes", ["heels", "sandals", "classic-shoes"]) ] ],
         ["sneakers", "boots", "jeans", "t-shirt"]⟩)⟩ := by
  have h := (C2_compatibility "wedding" "female" [⟨"1", "x", "t-shirt", [], []⟩]).2.1
    ⟨[ [ ("one-piece", ["evening-dress", "jumpsuit", "modest-evening-dress"]),
         ("shoes", ["heels", "sandals", "classic-shoes"]) ] ],
     ["sneakers", "boots", "jeans", "t-shirt"]⟩
    (by decide) (by decide)
  exact (h.2 (by decide)).1

/-- The non-premium plan limit is at least 1 (free: 2, anonymous: 1,
default: 2), so a freshly reset usage record always passes the gate. -/
theorem planLimitNonPremium_pos (p : String) : 0 < planLimitNonPremium p := by
  unfold planLimitNonPremium PLAN_LIMITS
  by_cases h1 : p = "free"
  · simp [List.lookup, h1]
  · by_cases h2 : p = "premium"
    · simp [List.lookup, h1, h2]
    · by_cases h3 : p = "anonymous"
      · simp [List.lookup, h1, h2, h3]
      · simp [List.lookup, beq_eq_false_iff_ne.mpr h1, beq_eq_false_iff_ne.mpr h2,
          beq_eq_false_iff_ne.mpr h3]

/-- C3 counterexample: a non-premium user at their limit today is denied,
but the detail string of the authenticated 429 is the fixed
"Daily limit reached.", which contains no digit at all — so the denial does
not include the numeric limit in the message (only the anonymous branch
embeds its limit). -/
theorem C3_counterexample :
    check_usage_auth "2025-01-02" "u1"
      ⟨"free", some "female", ⟨2, "2025-01-02", 0⟩, []⟩ =
      .error ⟨429, "Daily limit reached."⟩ ∧
    ∀ c ∈ "Daily limit reached.".data, ¬ c.isDigit := by
  constructor
  · decide
  · decide

/-- C3 (amended): for an authenticated non-premium user whose stored usage
date equals today, the gate denies with HTTP-429 and the fixed message
"Daily limit reached." (which does not embed the numeric limit) iff
`count ≥ plan_daily_limit(plan) + rewarded_count`; premium plans bypass the
check entirely; and a record dated before today is reset to `count = 0`
(and `rewarded_count = 0`) before the check, so a record dated yesterday
with `count = 2` against limit 2 is allowed today. -/
theorem C3_quota_gate (today user_id : String) (u : StoredUser) :
    (u.plan = "premium" → check_usage_auth today user_id u =
      .ok ⟨user_id, u.gender.getD "unisex", u.plan, u.recent_outfits, false⟩) ∧
    (u.plan ≠ "premium" → u.usage.dateStr = today →
      (check_usage_auth today user_id u = .error ⟨429, "Daily limit reached."⟩ ↔
        planLimitNonPremium u.plan + u.usage.rewarded_count ≤ u.usage.count) ∧
      (u.usage.count < planLimitNonPremium u.plan + u.usage.rewarded_count →
        check_usage_auth today user_id u =
          .ok ⟨user_id, u.gender.getD "unisex", u.plan, u.recent_outfits, false⟩)) ∧
    (u.plan ≠ "premium" → u.usage.dateStr ≠ today →
      check_usage_auth today user_id u =
        .ok ⟨user_id, u.gender.getD "unisex", u.plan, u.recent_outfits, false⟩) := by
  refine ⟨?_, ?_, ?_⟩
  · intro hprem
    simp [check_usage_auth, hprem]
  · intro hprem hdate
    have hnotne : ¬ u.usage.dateStr ≠ today := fun h => h hdate
    constructor
    · by_cases hge : planLimitNonPremium u.plan + u.usage.rewarded_count ≤ u.usage.count
      · constructor
        · intro _; exact hge
        · intro _
          simp [check_usage_auth, hprem, hnotne, hge]
      · constructor
        · intro herr
          simp [check_usage_auth, hprem, hnotne, hge] at herr
        · intro hge'; exact absurd hge' hge
    · intro hlt
      have hge : ¬ planLimitNonPremium u.plan + u.usage.rewarded_count ≤ u.usage.count :=
        Nat.not_le.mpr hlt
      simp [check_usage_auth, hprem, hnotne, hge]
  · intro hprem hdate
    have hne : planLimitNonPremium u.plan ≠ 0 :=
      Nat.pos_iff_ne_zero.mp (planLimitNonPremium_pos u.plan)
    simp [check_usage_auth, hprem, hdate, hne]

/-- Witness: C3 on concrete records — yesterday's exhausted record is
allowed today (daily rollover), and a record at the limit today is denied
with the fixed message. -/
theorem C3_quota_gate_witness :
    check_usage_auth "2025-01-02" "u1" ⟨"free", none, ⟨2, "2025-01-01", 0⟩, []⟩ =
      .ok ⟨"u1", "unisex", "free", [], false⟩ ∧
    check_usage_auth "2025-01-02" "u2" ⟨"free", some "male", ⟨2, "2025-01-02", 0⟩, []⟩ =
      .error ⟨429, "Daily limit reached."⟩ := by
  constructor
  · exact (C3_quota_gate "2025-01-02" "u1"
      ⟨"free", none, ⟨2, "2025-01-01", 0⟩, []⟩).2.2 (by decide) (by decide)
  · exact ((C3_quota_gate "2025-01-02" "u2"
      ⟨"free", some "male", ⟨2, "2025-01-02", 0⟩, []⟩).2.1 (by decide)
        (by decide)).1.mpr (by decide)

/-- Membership in the hard-avoid set after adding an attempt's ids. -/
theorem mem_addAvoid (ids : List String) (ha : List String) (x : String) :
    x ∈ addAvoid ha ids ↔ x ∈ ha ∨ x ∈ ids := by
  induction ids generalizing ha with
  | nil => simp [addAvoid]
  | cons i is ih =>
    show x ∈ addAvoid (if ha.contains i then ha else ha ++ [i]) is ↔ _
    rw [ih]
    by_cases hc : ha.contains i
    · rw [if_pos hc]
      have hmem : i ∈ ha := by simpa using hc
      constructor
      · rintro (h | h)
        · exact Or.inl h
        · exact Or.inr (List.mem_cons_of_mem _ h)
      · rintro (h | h)
        · exact Or.inl h
        · rcases List.mem_cons.mp h with rfl | h
          · exact Or.inl hmem
          · exact Or.inr h
    · rw [if_neg hc]
      simp only [List.mem_append, List.mem_singleton, List.mem_cons]
      tauto

/-- A nonempty id list sorts to a nonempty list. -/
theorem sortStr_ne_nil {l : List String} (h : l ≠ []) : sortStr l ≠ [] := by
  intro hs
  exact h (List.Perm.eq_nil (hs ▸ (sortStr_perm l).symm))

/-- C4: the novelty check compares the canonicalized (sorted) id list of
the attempt's surviving items against the caller's history, so permuted id
lists are the same entry; on a match all of the attempt's ids join the
cross-attempt hard-avoid set and the retry's prompt carries the explicit
exclusion clause; for anonymous identities the step is skipped entirely
(an attempt with survivors is always accepted). -/
theorem C4_novelty (w : List OptimizedClothingItem) (ex : List (List String))
    (ha : List String) (resp : AIResponse) :
    (∀ ids1 ids2 : List String, ids1.Perm ids2 → sortStr ids1 = sortStr ids2) ∧
    (validate_outfit_structure resp.items w ≠ [] →
      ((∃ na, attemptOutcome false w ex ha resp = .repeated na) ↔
        (ex.contains (new_outfit_ids resp w) ||
          (new_outfit_ids resp w).any (fun i => ha.contains i)) = true)) ∧
    (∀ na, attemptOutcome false w ex ha resp = .repeated na →
      (∀ i ∈ (validate_outfit_structure resp.items w).map (·.id), i ∈ na) ∧
      (∀ i ∈ ha, i ∈ na) ∧ na ≠ [] ∧
      (∀ bp, currentPrompt bp na = bp ++
        "\nCRITICAL AVOIDANCE RULE: You are strictly forbidden from using any of these item IDs: "
        ++ String.intercalate ", " na ++ "\n")) ∧
    (∀ (gpt : Nat → String → AIResponse) (bp : String) (a f : Nat)
        (na : List String),
      attemptOutcome false w ex ha (gpt a (currentPrompt bp ha)) = .repeated na →
      suggestLoop gpt false w ex bp a (f + 1) ha =
        suggestLoop gpt false w ex bp (a + 1) f na) ∧
    ((∀ na, attemptOutcome true w ex ha resp ≠ .repeated na) ∧
      (validate_outfit_structure resp.items w ≠ [] →
        attemptOutcome true w ex ha resp =
          .accept (validate_outfit_structure resp.items w))) := by
  refine ⟨?_, ?_, ?_, ?_, ?_, ?_⟩
  · exact fun ids1 ids2 h => sortStr_eq_of_perm h
  · intro hv
    constructor
    · rintro ⟨na, hna⟩
      exact (attemptOutcome_repeated hna).2.2.2
    · intro hcond
      refine ⟨addAvoid ha (new_outfit_ids resp w), ?_⟩
      simp only [attemptOutcome]
      rw [if_neg hv]
      have hb : (!false && (ex.contains (new_outfit_ids resp w) ||
          (new_outfit_ids resp w).any (fun i => ha.contains i))) = true := by
        simpa using hcond
      rw [if_pos hb]
  · intro na hna
    obtain ⟨hna_eq, hv, -, -⟩ := attemptOutcome_repeated hna
    have hids : (validate_outfit_structure resp.items w).map (·.id) ≠ [] := by
      simpa using hv
    have hperm := sortStr_perm ((validate_outfit_structure resp.items w).map (·.id))
    refine ⟨?_, ?_, ?_, ?_⟩
    · intro i hi
      rw [hna_eq, mem_addAvoid]
      exact Or.inr (hperm.mem_iff.mpr hi)
    · intro i hi
      rw [hna_eq, mem_addAvoid]
      exact Or.inl hi
    · obtain ⟨x, hx⟩ := List.exists_mem_of_ne_nil _ (sortStr_ne_nil hids)
      have : x ∈ na := by
        rw [hna_eq, mem_addAvoid]
        exact Or.inr hx
      exact List.ne_nil_of_mem this
    · intro bp
      have hne : na ≠ [] := by
        obtain ⟨x, hx⟩ := List.exists_mem_of_ne_nil _ (sortStr_ne_nil hids)
        exact List.ne_nil_of_mem (by rw [hna_eq, mem_addAvoid]; exact Or.inr hx)
      rw [currentPrompt, if_neg hne]
  · intro gpt bp a f na h
    simp only [suggestLoop, h]
  · intro na h
    have := (attemptOutcome_repeated h).2.2.1
    simp at this
  · intro hv
    simp only [attemptOutcome]
    rw [if_neg hv]
    simp

/-- Witness: C4 on concrete data — `[id2, id1]` and `[id1, id2]`
canonicalize identically, and after a concrete repeat the exclusion clause
is appended verbatim to the base prompt. -/
theorem C4_novelty_witness :
    sortStr ["id2", "id1"] = sortStr ["id1", "id2"] ∧
    currentPrompt "base" ["1", "2"] = "base" ++
      "\nCRITICAL AVOIDANCE RULE: You are strictly forbidden from using any of these item IDs: "
      ++ String.intercalate ", " ["1", "2"] ++ "\n" := by
  have h := C4_novelty
    [⟨"1", "a", "t-shirt", [], []⟩, ⟨"2", "b", "jeans", [], []⟩]
    [["1", "2"]] []
    { items := some [.obj (some "2") "b" "jeans", .obj (some "1") "a" "t-shirt"],
      description := none, suggestion_tip := none, pinterest_links := none }
  constructor
  · exact h.1 ["id2", "id1"] ["id1", "id2"] (by decide)
  · exact ((h.2.2.1 ["1", "2"] (by decide)).2.2.2) "base"

/-- C5: a successful authenticated request charges exactly one usage count
(`firestore.Increment(1)`) regardless of how many internal attempts were
consumed, and pushes the new canonicalized id list to the front of the
recent-outfit history truncated to the configured maximum (5); a request
that exhausts all attempts fails with the localized "could not produce a
distinct suggestion" error and, being an error, performs no usage or
history write. -/
theorem C5_charging (bp : String) (gpt : Nat → String → AIResponse)
    (req : OutfitRequestM) (ui : UserInfo) (hanon : ui.is_anonymous = false) :
    (∀ resp eff, suggest_outfit bp gpt req ui = .ok (resp, eff) →
      eff = .authUpdate ui.user_id 1
        ((sortStr (resp.items.map (·.id)) :: ui.recent_outfits).take 5)) ∧
    (check_wardrobe_compatibility req.occasion req.wardrobe ui.gender = .ok () →
      wardrobeSent req.occasion ui.gender req.wardrobe ≠ [] →
      suggestLoop gpt ui.is_anonymous
        (wardrobeSent req.occasion ui.gender req.wardrobe)
        (ui.recent_outfits.map sortStr) bp 1 max_attempts [] = none →
      suggest_outfit bp gpt req ui =
        .error ⟨422, sameOutfitError req.language⟩ ∧
      ∀ resp eff, suggest_outfit bp gpt req ui ≠ .ok (resp, eff)) := by
  constructor
  · intro resp eff hok
    obtain ⟨r, hl, -, -, -, heff⟩ := suggest_outfit_ok_elim hok
    rw [heff, if_neg (by simp [hanon])]
  · intro hc hw hl
    have herr := suggest_outfit_loop_none hc hw hl
    refine ⟨herr, fun resp eff hok => ?_⟩
    rw [herr] at hok
    cases hok

/-- Witness: C5 on a concrete run that consumes both attempts (the first is
rejected as a repeat) — the effect still charges exactly 1 and prepends the
sorted id list; and on a run whose every attempt repeats — the localized
422 with no usage effect. -/
theorem C5_charging_witness :
    suggest_outfit "p"
      (fun a _ => if a = 1 then
          ⟨some [.obj (some "1") "A" "t-shirt"], some "d", none, none⟩
        else ⟨some [.obj (some "2") "B" "jeans"], some "d", none, none⟩)
      ⟨"en", "casual", [⟨"1", "a", "t-shirt", [], []⟩, ⟨"2", "b", "jeans", [], []⟩]⟩
      ⟨"u", "female", "free", [["1"]], false⟩ =
      .ok (⟨[⟨"2", "B", "jeans"⟩], "d", "", []⟩, .authUpdate "u" 1 [["2"], ["1"]]) ∧
    UsageEffect.authUpdate "u" 1 [["2"], ["1"]] = .authUpdate "u" 1
      ((sortStr ([(⟨"2", "B", "jeans"⟩ : SuggestedItem)].map (·.id)) :: [["1"]]).take 5) ∧
    suggest_outfit "p"
      (fun _ _ => ⟨some [.obj (some "1") "A" "t-shirt"], some "d", none, none⟩)
      ⟨"en", "casual", [⟨"1", "a", "t-shirt", [], []⟩, ⟨"2", "b", "jeans", [], []⟩]⟩
      ⟨"u", "female", "free", [["1"]], false⟩ =
      .error ⟨422, sameOutfitError "en"⟩ := by
  refine ⟨by decide, ?_, ?_⟩
  · exact (C5_charging "p"
      (fun a _ => if a = 1 then
          ⟨some [.obj (some "1") "A" "t-shirt"], some "d", none, none⟩
        else ⟨some [.obj (some "2") "B" "jeans"], some "d", none, none⟩)
      ⟨"en", "casual", [⟨"1", "a", "t-shirt", [], []⟩, ⟨"2", "b", "jeans", [], []⟩]⟩
      ⟨"u", "female", "free", [["1"]], false⟩ rfl).1
      ⟨[⟨"2", "B", "jeans"⟩], "d", "", []⟩ (.authUpdate "u" 1 [["2"], ["1"]])
      (by decide)
  · exact ((C5_charging "p"
      (fun _ _ => ⟨some [.obj (some "1") "A" "t-shirt"], some "d", none, none⟩)
      ⟨"en", "casual", [⟨"1", "a", "t-shirt", [], []⟩, ⟨"2", "b", "jeans", [], []⟩]⟩
      ⟨"u", "female", "free", [["1"]], false⟩ rfl).2
      (by decide) (by decide) (by decide)).1

/-- C6: the wardrobe filter removes exactly the items whose category is in
the occasion's forbidden categories; if that removal would empty the
wardrobe, the original unfiltered wardrobe is used instead; and if the
wardrobe is still empty after this fallback, the request fails with HTTP
400 without calling the generative service (the result is the same for
every oracle). -/
theorem C6_wardrobe_filter (occasion gender : String)
    (wardrobe : List OptimizedClothingItem) :
    (∀ item, item ∈ filtered_wardrobe_of (requirementsMap gender) occasion wardrobe ↔
      item ∈ wardrobe ∧
        item.category ∉ forbidden_categories_of (requirementsMap gender) occasion) ∧
    (filtered_wardrobe_of (requirementsMap gender) occasion wardrobe ≠ [] →
      wardrobeSent occasion gender wardrobe =
        filtered_wardrobe_of (requirementsMap gender) occasion wardrobe) ∧
    (filtered_wardrobe_of (requirementsMap gender) occasion wardrobe = [] →
      wardrobeSent occasion gender wardrobe = wardrobe) ∧
    (wardrobeSent occasion gender wardrobe = [] →
      ∀ (bp lang : String) (gpt : Nat → String → AIResponse) (ui : UserInfo),
        ui.gender = gender →
        check_wardrobe_compatibility occasion wardrobe gender = .ok () →
        suggest_outfit bp gpt ⟨lang, occasion, wardrobe⟩ ui =
          .error ⟨400, "Wardrobe cannot be empty."⟩) := by
  refine ⟨?_, ?_, ?_, ?_⟩
  · intro item
    simp [filtered_wardrobe_of, List.mem_filter]
  · intro h
    simp [wardrobeSent, wardrobeSent_of, h]
  · intro h
    simp [wardrobeSent, wardrobeSent_of, h]
  · intro hw bp lang gpt ui hg hc
    subst hg
    exact suggest_outfit_empty_wardrobe hc hw

/-- Witness: C6 on concrete data — a wardrobe that filtering would empty
falls back to the original, and a genuinely empty wardrobe yields the 400
before any generative work. -/
theorem C6_wardrobe_filter_witness :
    wardrobeSent "yoga-pilates" "female" [⟨"1", "a", "jeans", [], []⟩] =
      [⟨"1", "a", "jeans", [], []⟩] ∧
    suggest_outfit "p" (fun _ _ => ⟨none, none, none, none⟩) ⟨"en", "casual", []⟩
      ⟨"u", "female", "free", [], false⟩ =
      .error ⟨400, "Wardrobe cannot be empty."⟩ := by
  constructor
  · exact (C6_wardrobe_filter "yoga-pilates" "female"
      [⟨"1", "a", "jeans", [], []⟩]).2.2.1 (by decide)
  · exact (C6_wardrobe_filter "casual" "female" []).2.2.2 (by decide) "p" "en"
      (fun _ _ => ⟨none, none, none, none⟩)
      ⟨"u", "female", "free", [], false⟩ rfl (by decide)

/-- C7: with both failure counters decayed (zeroed when the 300 s reset
window has elapsed since that backend's last use), selection returns the
primary while its count is below `max_failures` (3), else the secondary
under the same condition, else it force-resets the primary's count to 0
and returns the primary; `report_success` decrements the chosen backend's
count with a floor of 0 and `report_failure` increments it; an elapsed
window makes the primary selectable again with no new successes; and after
three consecutive failures on the primary (within the window) selection
yields the secondary. -/
theorem C7_balancer (b : GPTLoadBalancer) (t pf sf : Nat)
    (hpf : pf = if t - b.last_primary_use > failure_reset_time then 0
                else b.primary_failures)
    (hsf : sf = if t - b.last_secondary_use > failure_reset_time then 0
                else b.secondary_failures) :
    ((pf < max_failures →
       get_available_client b t = (⟨pf, sf, t, b.last_secondary_use⟩, .primary)) ∧
     (¬ pf < max_failures → sf < max_failures →
       get_available_client b t = (⟨pf, sf, b.last_primary_use, t⟩, .secondary)) ∧
     (¬ pf < max_failures → ¬ sf < max_failures →
       get_available_client b t = (⟨0, sf, t, b.last_secondary_use⟩, .primary))) ∧
    (report_failure b .primary =
      ⟨b.primary_failures + 1, b.secondary_failures,
       b.last_primary_use, b.last_secondary_use⟩ ∧
     report_failure b .secondary =
      ⟨b.primary_failures, b.secondary_failures + 1,
       b.last_primary_use, b.last_secondary_use⟩) ∧
    (report_success b .primary =
      ⟨b.primary_failures - 1, b.secondary_failures,
       b.last_primary_use, b.last_secondary_use⟩ ∧
     (b.primary_failures = 0 → (report_success b .primary).primary_failures = 0) ∧
     report_success b .secondary =
      ⟨b.primary_failures, b.secondary_failures - 1,
       b.last_primary_use, b.last_secondary_use⟩ ∧
     (b.secondary_failures = 0 →
       (report_success b .secondary).secondary_failures = 0)) ∧
    (∀ (c : GPTLoadBalancer) (u : Nat),
      u - c.last_primary_use > failure_reset_time →
      (get_available_client c u).2 = .primary) ∧
    (∀ u : Nat, b.primary_failures = 0 →
      ¬ u - b.last_primary_use > failure_reset_time →
      (u - b.last_secondary_use > failure_reset_time ∨
        b.secondary_failures < max_failures) →
      (get_available_client
        (report_failure (report_failure (report_failure b .primary) .primary)
          .primary) u).2 = .secondary) := by
  refine ⟨⟨?_, ?_, ?_⟩, ⟨rfl, rfl⟩, ⟨rfl, ?_, rfl, ?_⟩, ?_, ?_⟩
  · intro hlt
    simp only [get_available_client, ← hpf, ← hsf]
    rw [if_pos hlt]
  · intro hge hlt
    simp only [get_available_client, ← hpf, ← hsf]
    rw [if_neg hge, if_pos hlt]
  · intro hge1 hge2
    simp only [get_available_client, ← hpf, ← hsf]
    rw [if_neg hge1, if_neg hge2]
  · intro h
    simp [report_success, h]
  · intro h
    simp [report_success, h]
  · intro c u h
    simp only [get_available_client]
    rw [if_pos h]
    have : (0 : Nat) < max_failures := by decide
    rw [if_pos this]
  · intro u h0 hno hsec
    simp only [report_failure, get_available_client]
    simp only [h0]
    rw [if_neg hno]
    have h3 : ¬ (0 + 1 + 1 + 1 < max_failures) := by decide
    rw [if_neg h3]
    rcases hsec with helapsed | hlow
    · rw [if_pos helapsed]
      have : (0 : Nat) < max_failures := by decide
      rw [if_pos this]
    · by_cases helapsed : u - b.last_secondary_use > failure_reset_time
      · rw [if_pos helapsed]
        have : (0 : Nat) < max_failures := by decide
        rw [if_pos this]
      · rw [if_neg helapsed, if_pos hlow]

/-- Witness: C7 on a concrete trace — a fresh balancer at `t = 400` selects
the primary; after three straight primary failures, at `t = 500` (window
not yet elapsed) it selects the secondary; at `t = 800` (window elapsed)
the primary is selectable again with no successes reported. -/
theorem C7_balancer_witness :
    get_available_client ⟨0, 0, 0, 0⟩ 400 = (⟨0, 0, 400, 0⟩, .primary) ∧
    (get_available_client
      (report_failure (report_failure (report_failure ⟨0, 0, 400, 0⟩ .primary)
        .primary) .primary) 500).2 = .secondary ∧
    (get_available_client ⟨3, 0, 400, 0⟩ 800).2 = .primary := by
  refine ⟨?_, ?_, ?_⟩
  · exact (C7_balancer ⟨0, 0, 0, 0⟩ 400 0 0 (by decide) (by decide)).1.1 (by decide)
  · exact (C7_balancer ⟨0, 0, 400, 0⟩ 500 0 0 (by decide) (by decide)).2.2.2.2 500
      rfl (by decide) (Or.inl (by decide))
  · exact (C7_balancer ⟨3, 0, 400, 0⟩ 800 0 0 (by decide) (by decide)).2.2.2.1
      ⟨3, 0, 400, 0⟩ 800 (by decide)

/-- C8 counterexample: a premium success whose generative output offers
four nonempty search queries yields four links: the assembler enforces no
"up to three" cap (only the prompt requests exactly three), so the claim
as stated fails on this output. -/
theorem C8_counterexample :
    (suggest_outfit "p"
      (fun _ _ => ⟨some [.obj (some "1") "A" "t-shirt"], some "d", none,
        some [⟨some "t1", some "q1", some "u1"⟩, ⟨some "t2", some "q2", none⟩,
              ⟨some "t3", some "q3", none⟩, ⟨some "t4", some "q4", none⟩]⟩)
      ⟨"en", "casual", [⟨"1", "a", "t-shirt", [], []⟩]⟩
      ⟨"u", "female", "premium", [], false⟩).map
        (fun r => r.1.pinterest_links.length) = .ok 4 := by decide

/-- C8 (amended): for every premium caller's successful response the
assembler takes all model-suggested nonempty search-query strings (the
prompt requests exactly three, but no cap is enforced), URL-encodes each
query, and emits links built locally from the encoded query with the
model-provided title (default "Inspiration"), never using a model-emitted
URL; for every non-premium caller the response contains no links. -/
theorem C8_pinterest (bp : String) (gpt : Nat → String → AIResponse)
    (req : OutfitRequestM) (ui : UserInfo) :
    (∀ resp eff, suggest_outfit bp gpt req ui = .ok (resp, eff) →
      ui.plan ≠ "premium" → resp.pinterest_links = []) ∧
    (∀ resp eff, suggest_outfit bp gpt req ui = .ok (resp, eff) →
      resp.pinterest_links = [] ∨
      ∃ ideas, resp.pinterest_links = assemblePinterestLinks ideas) ∧
    (∀ ideas, assemblePinterestLinks ideas =
      assemblePinterestLinks (ideas.map (fun i => ⟨i.title, i.search_query, none⟩))) ∧
    (∀ ideas l, l ∈ assemblePinterestLinks ideas → ∃ idea ∈ ideas, ∃ q,
      idea.search_query = some q ∧ q ≠ "" ∧
      l.url = "https://www.pinterest.com/search/pins/?q=" ++ quote q ∧
      l.title = idea.title.getD "Inspiration") ∧
    (∀ ideas idea, idea ∈ ideas → ∀ q, idea.search_query = some q → q ≠ "" →
      PinterestLink.mk (idea.title.getD "Inspiration")
        ("https://www.pinterest.com/search/pins/?q=" ++ quote q) ∈
        assemblePinterestLinks ideas) := by
  refine ⟨?_, ?_, ?_, ?_, ?_⟩
  · intro resp eff hok hnp
    obtain ⟨r, -, -, -, hlinks, -⟩ := suggest_outfit_ok_elim hok
    rw [hlinks, if_neg hnp]
  · intro resp eff hok
    obtain ⟨r, -, -, -, hlinks, -⟩ := suggest_outfit_ok_elim hok
    by_cases hp : ui.plan = "premium"
    · rw [hlinks, if_pos hp]
      cases hi : r.pinterest_links with
      | none => exact Or.inl rfl
      | some ideas => exact Or.inr ⟨ideas, rfl⟩
    · rw [hlinks, if_neg hp]
      exact Or.inl rfl
  · intro ideas
    have hcomp : assembleLink ∘
        (fun i : LinkIdea => (⟨i.title, i.search_query, none⟩ : LinkIdea)) =
        assembleLink := by
      funext i
      rfl
    rw [assemblePinterestLinks, assemblePinterestLinks, List.filterMap_map,
      hcomp]
  · intro ideas l hl
    simp only [assemblePinterestLinks, List.mem_filterMap] at hl
    obtain ⟨idea, hidea, hsome⟩ := hl
    cases hq : idea.search_query with
    | none => simp [assembleLink, hq] at hsome
    | some q =>
      simp only [assembleLink, hq] at hsome
      by_cases hqe : q = ""
      · rw [if_pos hqe] at hsome
        cases hsome
      · rw [if_neg hqe] at hsome
        refine ⟨idea, hidea, q, hq, hqe, ?_, ?_⟩
        · rw [← Option.some_inj.mp hsome]
        · rw [← Option.some_inj.mp hsome]
  · intro ideas idea hidea q hq hne
    simp only [assemblePinterestLinks, List.mem_filterMap]
    refine ⟨idea, hidea, ?_⟩
    simp only [assembleLink, hq]
    rw [if_neg hne]

/-- Witness: C8 on concrete data — a free-plan success carries no links,
and a concrete idea with query "a b" yields the locally built,
percent-encoded link, its model-emitted `url` ignored. -/
theorem C8_pinterest_witness :
    ([] : List PinterestLink) = [] ∧
    PinterestLink.mk "T" ("https://www.pinterest.com/search/pins/?q=" ++ quote "a b") ∈
      assemblePinterestLinks [⟨some "T", some "a b", some "evil"⟩] := by
  constructor
  · exact (C8_pinterest "p"
      (fun _ _ => ⟨some [.obj (some "1") "A" "t-shirt"], some "d", none, none⟩)
      ⟨"en", "casual", [⟨"1", "a", "t-shirt", [], []⟩]⟩
      ⟨"u", "female", "free", [], false⟩).1
      ⟨[⟨"1", "A", "t-shirt"⟩], "d", "", []⟩ (.authUpdate "u" 1 [["1"]])
      (by decide) (by decide)
  · exact (C8_pinterest "p" (fun _ _ => ⟨none, none, none, none⟩)
      ⟨"en", "casual", []⟩ ⟨"u", "female", "free", [], false⟩).2.2.2.2
      [⟨some "T", some "a b", some "evil"⟩] ⟨some "T", some "a b", some "evil"⟩
      (by decide) "a b" rfl (by decide)

/-- C9: every gender other than exactly the string "male" — including the
"unisex" default assigned to anonymous users and the default applied when a
stored gender is missing — dispatches both the compatibility pre-check and
the forbidden-category filter (via `wardrobeSent`) to the female rule
table `OCCASION_REQUIREMENTS_FEMALE`. -/
theorem C9_gender_dispatch (g : String) (hg : g ≠ "male") :
    requirementsMap g = OCCASION_REQUIREMENTS_FEMALE ∧
    (∀ occasion wardrobe, check_wardrobe_compatibility occasion wardrobe g =
      check_wardrobe_compatibility_of OCCASION_REQUIREMENTS_FEMALE occasion wardrobe) ∧
    (∀ occasion wardrobe, wardrobeSent occasion g wardrobe =
      wardrobeSent_of OCCASION_REQUIREMENTS_FEMALE occasion wardrobe) ∧
    (∀ occasion, forbidden_categories_of (requirementsMap g) occasion =
      forbidden_categories_of OCCASION_REQUIREMENTS_FEMALE occasion) ∧
    (∀ uid, (anonymous_user_info uid).gender = "unisex") ∧
    (∀ today uid u info, u.gender = none →
      check_usage_auth today uid u = .ok info → info.gender = "unisex") := by
  have hmap : requirementsMap g = OCCASION_REQUIREMENTS_FEMALE := by
    rw [requirementsMap, if_neg hg]
  refine ⟨hmap, ?_, ?_, ?_, fun uid => rfl, ?_⟩
  · intro occ w
    rw [check_wardrobe_compatibility, hmap]
  · intro occ w
    rw [wardrobeSent, hmap]
  · intro occ
    rw [hmap]
  · intro today uid u info hgn hok
    simp only [check_usage_auth] at hok
    repeat' split at hok
    all_goals cases hok
    all_goals simp [hgn]

/-- Witness: C9 at the "unisex" default — the rule table is the female one,
and the anonymous user info carries the "unisex" gender. -/
theorem C9_gender_dispatch_witness :
    requirementsMap "unisex" = OCCASION_REQUIREMENTS_FEMALE ∧
    (anonymous_user_info "a1").gender = "unisex" := by
  have h := C9_gender_dispatch "unisex" (by decide)
  exact ⟨h.1, h.2.2.2.2.1 "a1"⟩

/-- C10: within one authenticated request, an attempt whose validated item
set shares even a single id with the cross-attempt hard-avoid set is
rejected as a repeat (whether or not the whole canonicalized outfit matches
any history entry), and the rejection adds the attempt's ids to the
hard-avoid set it already extends. -/
theorem C10_single_overlap (w : List OptimizedClothingItem)
    (ex : List (List String)) (ha : List String) (resp : AIResponse)
    (i : String) (hv : validate_outfit_structure resp.items w ≠ [])
    (hha : i ∈ ha)
    (hid : i ∈ (validate_outfit_structure resp.items w).map (·.id)) :
    attemptOutcome false w ex ha resp =
      .repeated (addAvoid ha (new_outfit_ids resp w)) ∧
    ∀ x, x ∈ addAvoid ha (new_outfit_ids resp w) ↔
      x ∈ ha ∨ x ∈ new_outfit_ids resp w := by
  constructor
  · simp only [attemptOutcome]
    rw [if_neg hv]
    have hmem : i ∈ new_outfit_ids resp w := (sortStr_perm _).mem_iff.mpr hid
    have hany : (new_outfit_ids resp w).any (fun x => ha.contains x) = true := by
      simp only [List.any_eq_true]
      exact ⟨i, hmem, by simpa using hha⟩
    have hb : (!false && (ex.contains (new_outfit_ids resp w) ||
        (new_outfit_ids resp w).any (fun x => ha.contains x))) = true := by
      rw [hany]
      simp
    rw [if_pos hb]
  · intro x
    exact mem_addAvoid _ _ _

/-- Witness: C10 on concrete data — history is empty (so no whole-outfit
match is possible), yet the one-id overlap with the hard-avoid set rejects
the attempt. -/
theorem C10_single_overlap_witness :
    attemptOutcome false
      [⟨"1", "a", "t-shirt", [], []⟩, ⟨"2", "b", "jeans", [], []⟩] [] ["1"]
      ⟨some [.obj (some "1") "A" "t-shirt", .obj (some "2") "B" "jeans"],
        none, none, none⟩ =
      .repeated (addAvoid ["1"] (new_outfit_ids
        ⟨some [.obj (some "1") "A" "t-shirt", .obj (some "2") "B" "jeans"],
          none, none, none⟩
        [⟨"1", "a", "t-shirt", [], []⟩, ⟨"2", "b", "jeans", [], []⟩])) := by
  exact (C10_single_overlap
    [⟨"1", "a", "t-shirt", [], []⟩, ⟨"2", "b", "jeans", [], []⟩] [] ["1"]
    ⟨some [.obj (some "1") "A" "t-shirt", .obj (some "2") "B" "jeans"],
      none, none, none⟩
    "1" (by decide) (by decide) (by decide)).1

end Combina
